import Mathlib

/-!
Shallow embedding of `src/app/userapp/notificationpage.tsx`, the notification
screen of the service app.  The remote Appwrite document store is modelled as a
list of notification records; each UI operation of the component is modelled as
a pure function from the component state (and the outcome of the remote calls
it makes) to the new state together with its observable effects (sound cue,
haptics, alerts).
-/

namespace NotificationPage

/-- Notification record as stored in the remote document collection:
`$id`, `userEmail`, `description`, `isRead`, `createdAt` (sort key). -/
structure NotificationDoc where
  id : String
  userEmail : String
  description : String
  isRead : Bool
  createdAt : Nat
deriving DecidableEq, Repr

/-- Model of `databases.listDocuments(DATABASE_ID, NOTIFICATIONS_COLLECTION,
[Query.equal('userEmail', email), Query.orderDesc('createdAt')])`: the backend
returns the documents whose `userEmail` equals `email`, sorted by `createdAt`
descending (newest first). -/
def listDocuments (store : List NotificationDoc) (email : String) : List NotificationDoc :=
  (store.filter (fun d => d.userEmail == email)).insertionSort
    (fun a b => b.createdAt ≤ a.createdAt)

/-- Local component state: `notifications`, `refreshing`, `previousCount`,
`userEmail` (the push-token state plays no role in the verified operations). -/
structure ComponentState where
  notifications : List NotificationDoc
  refreshing : Bool
  previousCount : Nat
  userEmail : String
deriving DecidableEq, Repr

/-- Result of one run of `fetchNotifications`: the new component state, how many
times the sound/haptic cue was played, and whether the fetch-failure alert was
shown. -/
structure FetchResult where
  state : ComponentState
  soundCue : Nat
  errorAlert : Bool
deriving DecidableEq, Repr

/-- Model of `fetchNotifications(email)` (lines 82–99).  `outcome` is the result
of the awaited `listDocuments` call: `some docs` when it resolves with
`res.documents = docs`, `none` when it rejects.  On success the documents are
filtered to the unread ones, the sound cue plays when the new unread count
exceeds `previousCount`, and the list and baseline count are replaced; on
failure the error alert is shown; the `finally` block always clears
`refreshing`. -/
def fetchNotifications (st : ComponentState) (outcome : Option (List NotificationDoc)) :
    FetchResult :=
  match outcome with
  | some docs =>
      let newNotifications := docs.filter (fun d => !d.isRead)
      { state := { st with
          notifications := newNotifications,
          previousCount := newNotifications.length,
          refreshing := false },
        soundCue := if newNotifications.length > st.previousCount then 1 else 0,
        errorAlert := false }
  | none =>
      { state := { st with refreshing := false },
        soundCue := 0,
        errorAlert := true }

/-- Model of a fetch whose remote query succeeds against the store `store`. -/
def fetchFromStore (store : List NotificationDoc) (email : String) (st : ComponentState) :
    FetchResult :=
  fetchNotifications st (some (listDocuments store email))

/-- Model of `onRefresh` (lines 126–131): sets the refresh flag, and issues a
fetch exactly when `userEmail` is truthy (non-empty).  The returned Bool says
whether `fetchNotifications` was started; the fetch itself is asynchronous and
modelled separately by `fetchNotifications`. -/
def onRefresh (st : ComponentState) : ComponentState × Bool :=
  ({ st with refreshing := true }, st.userEmail != "")

/-- Model of `databases.updateDocument` called with the collection, the id, and
the payload setting `isRead` to `true`: the backend sets the `isRead` flag of
the document with the given id and leaves every other field untouched. -/
def updateDocument (store : List NotificationDoc) (id : String) : List NotificationDoc :=
  store.map (fun d => if d.id == id then { d with isRead := true } else d)

/-- Observable events of one `markAsRead` run, in program order. -/
inductive MarkEvent
  | successHaptic
  | updateAttempt (id : String)
  | refetch
  | errorAlertShown
deriving DecidableEq, Repr

/-- Result of one run of `markAsRead`: the remote store afterwards, the new
component state, and the events in the order the code performs them. -/
structure MarkResult where
  store : List NotificationDoc
  state : ComponentState
  events : List MarkEvent
deriving DecidableEq, Repr

/-- Model of `markAsRead(id)` (lines 114–124).  Inside the `try` block the
success haptic fires first, then the remote update is awaited (`updateFails`
says whether that call rejects), then `fetchNotifications(userEmail)` is
started (`refetchOk` says whether its remote query succeeds; its own failure
alert is internal to the fetch).  The `catch` block shows the mark-as-read
error alert. -/
def markAsRead (store : List NotificationDoc) (st : ComponentState) (id : String)
    (updateFails : Bool) (refetchOk : Bool) : MarkResult :=
  if updateFails then
    { store := store, state := st,
      events := [.successHaptic, .updateAttempt id, .errorAlertShown] }
  else
    let newStore := updateDocument store id
    let fr := fetchNotifications st
      (if refetchOk then some (listDocuments newStore st.userEmail) else none)
    { store := newStore, state := fr.state,
      events := [.successHaptic, .updateAttempt id, .refetch] ++
        (if fr.errorAlert then [.errorAlertShown] else []) }

/-- Result of one confirmed `deleteAllNotifications` run: the remote store
afterwards, the new component state, whether the delete-failure alert was
shown, and how many times the warning haptic fired. -/
structure DeleteAllResult where
  store : List NotificationDoc
  state : ComponentState
  errorAlert : Bool
  warningHaptic : Nat
deriving DecidableEq, Repr

/-- Model of the confirmed branch of `deleteAllNotifications` (lines 146–166).
One `deleteDocument` call is issued concurrently for the id of every displayed
notification; `failing` says which ids' delete calls reject.  Every delete that
succeeds removes its document from the store (there is no rollback).
`Promise.all` rejects when any single delete fails, in which case the `catch`
block shows the error alert and no re-fetch happens; otherwise the warning
haptic fires and `fetchNotifications(userEmail)` runs against the new store. -/
def deleteAllConfirmed (store : List NotificationDoc) (st : ComponentState)
    (failing : String → Bool) : DeleteAllResult :=
  let attempted := st.notifications.map (fun n => n.id)
  let newStore := store.filter (fun d => !(attempted.contains d.id && !failing d.id))
  if st.notifications.any (fun n => failing n.id) then
    { store := newStore, state := st, errorAlert := true, warningHaptic := 0 }
  else
    let fr := fetchFromStore newStore st.userEmail st
    { store := newStore, state := fr.state, errorAlert := fr.errorAlert,
      warningHaptic := 1 }

/-- Result of `registerForPushNotificationsAsync`: the returned token and
whether an alert was shown.  The function is total: every input yields a
result, no path throws. -/
structure PushRegResult where
  token : Option String
  alert : Bool
deriving DecidableEq, Repr

/-- Model of `registerForPushNotificationsAsync` (lines 226–244).  On a
physical device the existing permission status is read; when it is not
`"granted"` the permission is requested and the requested status becomes the
final one.  A final status other than `"granted"` yields an alert and `null`;
a non-physical device yields an alert and `null`; otherwise the token data is
returned. -/
def registerForPushNotificationsAsync (isDevice : Bool)
    (existingStatus requestedStatus : String) (tokenData : String) : PushRegResult :=
  if isDevice then
    let finalStatus := if existingStatus != "granted" then requestedStatus else existingStatus
    if finalStatus != "granted" then
      { token := none, alert := true }
    else
      { token := some tokenData, alert := false }
  else
    { token := none, alert := true }

/-- Lifecycle events of one mount/unmount cycle that matter to resource
release: the asynchronous sound load resolving (which sets `soundRef.current`),
and unmount (which runs both effect cleanups). -/
inductive LifeEvent
  | loadComplete
  | unmount
deriving DecidableEq, Repr

/-- Lifecycle state: the `soundRef` ref cell, how many times `unloadAsync` was
called on the loaded sound, and how many times `subscription.remove()` ran. -/
structure LifeState where
  soundRef : Option Unit
  unloadCount : Nat
  listenerRemoveCount : Nat
deriving DecidableEq, Repr

/-- Model of the two effect cleanups (lines 54–58 and 76–78) against the ref
assignment in `loadSound` (line 51).  The sound cleanup unloads only when
`soundRef.current` is non-null at cleanup time; the listener cleanup always
removes the subscription. -/
def lifeStep (s : LifeState) : LifeEvent → LifeState
  | .loadComplete => { s with soundRef := some () }
  | .unmount =>
      { s with
        unloadCount := s.unloadCount + (if s.soundRef.isSome then 1 else 0),
        listenerRemoveCount := s.listenerRemoveCount + 1 }

/-- State right after mount: no sound loaded yet, nothing released. -/
def mountState : LifeState :=
  { soundRef := none, unloadCount := 0, listenerRemoveCount := 0 }

/-- Run one mount/unmount cycle through its lifecycle events. -/
def runLifecycle (events : List LifeEvent) : LifeState :=
  events.foldl lifeStep mountState

end NotificationPage

namespace NotificationPage

/-- The query result is sorted by `createdAt` descending. -/
theorem listDocuments_sorted (store : List NotificationDoc) (email : String) :
    (listDocuments store email).Pairwise (fun a b => b.createdAt ≤ a.createdAt) := by
  haveI : IsTotal NotificationDoc (fun a b => b.createdAt ≤ a.createdAt) :=
    ⟨fun a b => Nat.le_total _ _⟩
  haveI : IsTrans NotificationDoc (fun a b => b.createdAt ≤ a.createdAt) :=
    ⟨fun _ _ _ h1 h2 => Nat.le_trans h2 h1⟩
  exact List.sorted_insertionSort _ _

/-- Membership in the query result: exactly the store documents with the given
email. -/
theorem mem_listDocuments {store : List NotificationDoc} {email : String}
    {d : NotificationDoc} :
    d ∈ listDocuments store email ↔ d ∈ store ∧ d.userEmail = email := by
  simp [listDocuments, List.mem_insertionSort]

/-- C1: after a successful fetch, the displayed list contains exactly the
returned documents whose read flag is false, every displayed document's owning
email equals the queried email, and the list is ordered by creation timestamp
descending. -/
theorem fetch_displays_exactly_unread_sorted (store : List NotificationDoc)
    (email : String) (st : ComponentState) :
    (∀ d, d ∈ (fetchFromStore store email st).state.notifications ↔
        d ∈ listDocuments store email ∧ d.isRead = false) ∧
    (∀ d ∈ (fetchFromStore store email st).state.notifications, d.userEmail = email) ∧
    (fetchFromStore store email st).state.notifications.Pairwise
      (fun a b => b.createdAt ≤ a.createdAt) := by
  refine ⟨?_, ?_, ?_⟩
  · intro d
    simp [fetchFromStore, fetchNotifications]
  · intro d hd
    have hmem : d ∈ listDocuments store email := by
      have := (List.mem_filter.mp hd).1
      simpa using this
    exact (mem_listDocuments.mp hmem).2
  · exact (listDocuments_sorted store email).filter _

/-- C3: for every successful fetch, the sound/haptic cue fires exactly once
when the new unread count strictly exceeds the stored previous count and does
not fire otherwise, and the stored baseline is replaced by the new unread
count in either case. -/
theorem fetch_sound_iff_count_increased (st : ComponentState)
    (docs : List NotificationDoc) :
    ((fetchNotifications st (some docs)).soundCue = 1 ↔
        st.previousCount < (docs.filter (fun d => !d.isRead)).length) ∧
    ((fetchNotifications st (some docs)).soundCue = 1 ∨
        (fetchNotifications st (some docs)).soundCue = 0) ∧
    (fetchNotifications st (some docs)).state.previousCount =
      (docs.filter (fun d => !d.isRead)).length := by
  refine ⟨?_, ?_, rfl⟩ <;> simp only [fetchNotifications] <;> split <;> simp_all

/-- C5: a fetch whose remote query fails shows the error alert (leaving the
displayed list as it was), and every fetch, successful or failed, ends with the
refresh-in-progress flag cleared. -/
theorem fetch_failure_alert_and_refresh_cleared :
    (∀ st : ComponentState,
        (fetchNotifications st none).errorAlert = true ∧
        (fetchNotifications st none).state.notifications = st.notifications) ∧
    (∀ (st : ComponentState) (outcome : Option (List NotificationDoc)),
        (fetchNotifications st outcome).state.refreshing = false) := by
  refine ⟨fun st => ⟨rfl, rfl⟩, fun st outcome => ?_⟩
  cases outcome <;> rfl

/-- C8: pull-to-refresh sets the refresh-in-progress flag, and starts a fetch
of the stored user's notifications exactly when the stored email is
non-empty. -/
theorem onRefresh_sets_flag_fetch_iff_email (st : ComponentState) :
    (onRefresh st).1.refreshing = true ∧
    ((onRefresh st).2 = true ↔ st.userEmail ≠ "") := by
  exact ⟨rfl, bne_iff_ne⟩

/-- C10: a pull-to-refresh that runs while the stored user email is empty sets
the refresh flag to true and starts no fetch, so nothing in that invocation
clears the flag again: the state it leaves behind still has the flag set. -/
theorem onRefresh_empty_email_flag_stays (st : ComponentState)
    (h : st.userEmail = "") :
    (onRefresh st).1.refreshing = true ∧ (onRefresh st).2 = false := by
  refine ⟨rfl, ?_⟩
  simp [onRefresh, h]

/-- Witness for C10 at a concrete state with empty email. -/
theorem onRefresh_empty_email_flag_stays_witness :
    (onRefresh { notifications := [], refreshing := false, previousCount := 0,
                 userEmail := "" }).1.refreshing = true ∧
    (onRefresh { notifications := [], refreshing := false, previousCount := 0,
                 userEmail := "" }).2 = false :=
  onRefresh_empty_email_flag_stays _ rfl

/-- C9: the success haptic is always the first event of `markAsRead`, ahead of
the remote update attempt, so it fires also on runs where the update fails and
the error alert is then shown. -/
theorem markAsRead_haptic_before_update :
    (∀ (store : List NotificationDoc) (st : ComponentState) (id : String)
        (updateFails refetchOk : Bool),
        (markAsRead store st id updateFails refetchOk).events.take 2 =
          [MarkEvent.successHaptic, MarkEvent.updateAttempt id]) ∧
    (∀ (store : List NotificationDoc) (st : ComponentState) (id : String)
        (refetchOk : Bool),
        (markAsRead store st id true refetchOk).events.head? =
          some MarkEvent.successHaptic ∧
        MarkEvent.errorAlertShown ∈ (markAsRead store st id true refetchOk).events) := by
  constructor
  · intro store st id updateFails refetchOk
    cases updateFails <;> simp [markAsRead]
  · intro store st id refetchOk
    simp [markAsRead]

/-- C4: a successful mark-as-read flips exactly the targeted document's read
flag to true and no other field of any document, re-fetches so that the
targeted id is absent from the resulting displayed list, and a failed remote
update shows the error alert. -/
theorem markAsRead_spec :
    (∀ (store : List NotificationDoc) (st : ComponentState) (id : String)
        (refetchOk : Bool),
        List.Forall₂ (fun d e : NotificationDoc =>
            e.id = d.id ∧ e.userEmail = d.userEmail ∧ e.description = d.description ∧
            e.createdAt = d.createdAt ∧ e.isRead = (d.id == id || d.isRead))
          store (markAsRead store st id false refetchOk).store) ∧
    (∀ (store : List NotificationDoc) (st : ComponentState) (id : String),
        ∀ d ∈ (markAsRead store st id false true).state.notifications, d.id ≠ id) ∧
    (∀ (store : List NotificationDoc) (st : ComponentState) (id : String)
        (refetchOk : Bool),
        MarkEvent.refetch ∈ (markAsRead store st id false refetchOk).events) ∧
    (∀ (store : List NotificationDoc) (st : ComponentState) (id : String)
        (refetchOk : Bool),
        MarkEvent.errorAlertShown ∈ (markAsRead store st id true refetchOk).events) := by
  refine ⟨?_, ?_, ?_, ?_⟩
  · intro store st id refetchOk
    have hstore : (markAsRead store st id false refetchOk).store =
        store.map (fun d => if d.id == id then { d with isRead := true } else d) := rfl
    rw [hstore]
    rw [List.forall₂_map_right_iff, List.forall₂_same]
    intro d _
    by_cases h : d.id = id
    · simp [h]
    · simp [h]
  · intro store st id d hd
    have hd' : d ∈ listDocuments (updateDocument store id) st.userEmail ∧
        (!d.isRead) = true := by
      have : d ∈ (listDocuments (updateDocument store id) st.userEmail).filter
          (fun d => !d.isRead) := hd
      exact List.mem_filter.mp this
    have hmem : d ∈ updateDocument store id := (mem_listDocuments.mp hd'.1).1
    obtain ⟨e, _, he⟩ := List.mem_map.mp hmem
    intro hid
    by_cases heq : e.id = id
    · have : d.isRead = true := by
        rw [← he]
        simp [heq]
      simp [this] at hd'
    · have : d = e := by
        rw [← he]
        simp [heq]
      rw [this] at hid
      exact heq hid
  · intro store st id refetchOk
    simp [markAsRead]
  · intro store st id refetchOk
    simp [markAsRead]

/-- C6: a push-registration run on a non-physical device, or one whose final
permission status is not granted, returns a null token and shows an alert (the
model is a total function: no run throws). -/
theorem pushRegistration_denied_yields_null_and_alert (isDevice : Bool)
    (existingStatus requestedStatus tokenData : String)
    (h : isDevice = false ∨
        (if existingStatus != "granted" then requestedStatus else existingStatus) ≠
          "granted") :
    (registerForPushNotificationsAsync isDevice existingStatus requestedStatus
        tokenData).token = none ∧
    (registerForPushNotificationsAsync isDevice existingStatus requestedStatus
        tokenData).alert = true := by
  rcases h with h | h
  · subst h
    exact ⟨rfl, rfl⟩
  · cases isDevice
    · exact ⟨rfl, rfl⟩
    · simp only [registerForPushNotificationsAsync, if_true]
      rw [if_pos]
      · exact ⟨rfl, rfl⟩
      · simpa using h

/-- Witness for C6: permission already denied and denied again on request. -/
theorem pushRegistration_denied_yields_null_and_alert_witness :
    (registerForPushNotificationsAsync true "denied" "denied" "tok").token = none ∧
    (registerForPushNotificationsAsync true "denied" "denied" "tok").alert = true :=
  pushRegistration_denied_yields_null_and_alert true "denied" "denied" "tok"
    (Or.inr (by decide))

/-- C7 counter-evidence: when unmount runs before the asynchronous sound load
resolves, the cleanup sees a null `soundRef` and never unloads the sound (zero
unloads, with the sound left loaded afterwards), although the listener is still
removed exactly once; in the order load-then-unmount the sound is unloaded
exactly once. -/
theorem unmount_before_load_never_unloads_sound :
    (runLifecycle [LifeEvent.unmount, LifeEvent.loadComplete]).unloadCount = 0 ∧
    (runLifecycle [LifeEvent.unmount, LifeEvent.loadComplete]).soundRef = some () ∧
    (runLifecycle [LifeEvent.unmount, LifeEvent.loadComplete]).listenerRemoveCount = 1 ∧
    (runLifecycle [LifeEvent.loadComplete, LifeEvent.unmount]).unloadCount = 1 ∧
    (runLifecycle [LifeEvent.loadComplete, LifeEvent.unmount]).listenerRemoveCount = 1 := by
  decide

/-- The remote store after a confirmed delete-all: every delete that succeeded
is applied, whether or not `Promise.all` as a whole rejected. -/
theorem deleteAllConfirmed_store_eq (store : List NotificationDoc)
    (st : ComponentState) (failing : String → Bool) :
    (deleteAllConfirmed store st failing).store =
      store.filter (fun d =>
        !((st.notifications.map (fun n => n.id)).contains d.id && !failing d.id)) := by
  unfold deleteAllConfirmed
  split <;> rfl

/-- C2 as stated fails: two displayed notifications, the delete of `"b"`
rejects while the delete of `"a"` succeeds; the error alert is shown, yet the
remote store has lost document `"a"`, so it is not left unchanged. -/
theorem deleteAll_partial_failure_changes_store :
    let a : NotificationDoc :=
      { id := "a", userEmail := "u", description := "x", isRead := false, createdAt := 2 }
    let b : NotificationDoc :=
      { id := "b", userEmail := "u", description := "y", isRead := false, createdAt := 1 }
    let st : ComponentState :=
      { notifications := [a, b], refreshing := false, previousCount := 2, userEmail := "u" }
    (deleteAllConfirmed [a, b] st (fun s => s == "b")).errorAlert = true ∧
    (deleteAllConfirmed [a, b] st (fun s => s == "b")).store = [b] ∧
    [b] ≠ [a, b] := by
  decide

/-- C2 amended: each displayed notification's delete is attempted, and a store
document survives exactly when it was not a displayed document whose delete
succeeded; if some delete fails, the error alert is shown and the displayed
list is left unchanged (though the succeeded deletes remain applied); if all
deletes succeed and the displayed list was the current unread query result,
the re-fetched list is empty. -/
theorem deleteAll_amended_spec (store : List NotificationDoc) (st : ComponentState)
    (failing : String → Bool) :
    (∀ d ∈ store,
        (d ∈ (deleteAllConfirmed store st failing).store ↔
          ¬(d.id ∈ st.notifications.map (fun n => n.id) ∧ failing d.id = false))) ∧
    ((∃ n ∈ st.notifications, failing n.id = true) →
        (deleteAllConfirmed store st failing).errorAlert = true ∧
        (deleteAllConfirmed store st failing).state = st) ∧
    ((∀ n ∈ st.notifications, failing n.id = false) →
        st.notifications = (listDocuments store st.userEmail).filter (fun d => !d.isRead) →
        (deleteAllConfirmed store st failing).state.notifications = []) := by
  refine ⟨?_, ?_, ?_⟩
  · intro d hd
    rw [deleteAllConfirmed_store_eq, List.mem_filter]
    simp only [hd, true_and, List.contains, List.elem_eq_mem]
    by_cases hmem : d.id ∈ st.notifications.map (fun n => n.id) <;>
      cases hfail : failing d.id <;> simp [hmem, hfail]
  · rintro ⟨n, hn, hf⟩
    have hcond : (st.notifications.any (fun n => failing n.id)) = true :=
      List.any_eq_true.mpr ⟨n, hn, hf⟩
    unfold deleteAllConfirmed
    rw [if_pos hcond]
    exact ⟨rfl, rfl⟩
  · intro hall hcur
    have hcond : (st.notifications.any (fun n => failing n.id)) = false := by
      rw [Bool.eq_false_iff]
      intro hany
      obtain ⟨n, hn, hf⟩ := List.any_eq_true.mp hany
      rw [hall n hn] at hf
      exact Bool.false_ne_true hf
    have hstate : (deleteAllConfirmed store st failing).state.notifications =
        (listDocuments (deleteAllConfirmed store st failing).store st.userEmail).filter
          (fun d => !d.isRead) := by
      unfold deleteAllConfirmed
      rw [if_neg (by rw [hcond]; exact Bool.false_ne_true)]
      rfl
    rw [hstate, List.filter_eq_nil_iff]
    intro d hdmem
    obtain ⟨hdstore, hdemail⟩ := mem_listDocuments.mp hdmem
    rw [deleteAllConfirmed_store_eq, List.mem_filter] at hdstore
    obtain ⟨hdstore, hdkeep⟩ := hdstore
    intro hunread
    have hdisp : d ∈ st.notifications := by
      rw [hcur, List.mem_filter, mem_listDocuments]
      exact ⟨⟨hdstore, hdemail⟩, hunread⟩
    have hid : d.id ∈ st.notifications.map (fun n => n.id) :=
      List.mem_map.mpr ⟨d, hdisp, rfl⟩
    have hfd : failing d.id = false := hall d hdisp
    simp [List.contains, List.elem_eq_mem, hid, hfd] at hdkeep

/-- Witness for C2 amended: one displayed unread notification, its delete
succeeds, and the re-fetched list is empty. -/
theorem deleteAll_amended_spec_witness :
    (deleteAllConfirmed
        [{ id := "a", userEmail := "u", description := "x", isRead := false, createdAt := 1 }]
        { notifications :=
            [{ id := "a", userEmail := "u", description := "x", isRead := false,
               createdAt := 1 }],
          refreshing := false, previousCount := 1, userEmail := "u" }
        (fun _ => false)).state.notifications = [] :=
  (deleteAll_amended_spec
      [{ id := "a", userEmail := "u", description := "x", isRead := false, createdAt := 1 }]
      { notifications :=
          [{ id := "a", userEmail := "u", description := "x", isRead := false,
             createdAt := 1 }],
        refreshing := false, previousCount := 1, userEmail := "u" }
      (fun _ => false)).2.2 (by decide) (by decide)

end NotificationPage
